import Mathlib

/-!
Verification of the VISION assistant (`src/app.py`) against its
natural-language specification.

The development shallowly embeds the parts of `app.py` the claims touch:

* the response data model (the JSON shapes the code actually accesses),
* `call_gemini_api` (the bounded exponential-backoff retry loop),
* `format_citations_list` (structured citation dedup),
* `format_citations_cli` (Markdown citation rendering, nested in
  `main_assistant_loop`), and
* `api_ask` (the `/api/ask` handler).

Modelling conventions:

* JSON objects are modelled by structures whose fields are the keys the
  code accesses; an `Option` field holds `none` when the key is absent.
  JSON `null` values sitting under a key are identified with the key
  being absent, except in the `candidates` array, where the code
  distinguishes a `null` slot (`Option Candidate`) because
  `result.get('candidates', [None])[0]` can produce one.
* Python dict/str/list truthiness is modelled where the code relies on
  it: `if not candidate` is true for `None` and for the empty dict;
  `if uri` is false for `None` and for `""`;
  `if grounding_metadata and grounding_metadata.get(...)` is false for a
  missing block and for an empty attribution list.
* The network round trip of each attempt is abstracted by an
  environment `env : Nat → AttemptOutcome` giving, per attempt index,
  what the `requests.post` / `raise_for_status` / `response.json()`
  sequence produces: a transport-level failure
  (`requests.exceptions.RequestException`: connection error, timeout,
  or the non-2xx `HTTPError` from `raise_for_status`), a body that
  fails to parse as JSON (any other exception), or a parsed JSON body.
* `time.sleep(delay)` is recorded in a trace of sleep durations, and
  each executed attempt is counted, so that timing/counting claims can
  be stated.
* Exception text: the extraction code can itself raise `IndexError`
  (`[...][0]` on an empty list), whose CPython message is
  `"list index out of range"`; it is embedded in the critical-error
  sentinel exactly as Python interpolates `{e}`.
-/

namespace Vision

/-- `attribution['web']`: the `{uri, title}` object of a grounding
attribution. -/
structure WebInfo where
  uri : Option String
  title : Option String
  deriving DecidableEq, Repr

/-- One element of `groundingMetadata.groundingAttributions`. -/
structure Attribution where
  web : Option WebInfo
  deriving DecidableEq, Repr

/-- One element of `content.parts`. -/
structure ContentPart where
  text : Option String
  deriving DecidableEq, Repr

/-- `candidate['content']`. -/
structure Content where
  parts : Option (List ContentPart)
  deriving DecidableEq, Repr

/-- `candidate['groundingMetadata']`. -/
structure GroundingMetadata where
  groundingAttributions : Option (List Attribution)
  deriving DecidableEq, Repr

/-- One candidate of the API response; the two keys `call_gemini_api`
reads. -/
structure Candidate where
  content : Option Content
  groundingMetadata : Option GroundingMetadata
  deriving DecidableEq, Repr

/-- The parsed JSON body of a 2xx response; slots of the `candidates`
array may be JSON `null` (`Option Candidate`). -/
structure ApiResult where
  candidates : Option (List (Option Candidate))
  deriving DecidableEq, Repr

/-- `MAX_RETRIES = 3` (app.py line 32). -/
def MAX_RETRIES : Nat := 3

/-- `INITIAL_DELAY_SECONDS = 1` (app.py line 33). -/
def INITIAL_DELAY_SECONDS : Nat := 1

/-- Sentinel of the no-candidates branch (app.py line 98). -/
def noCandidatesText : String := "Error: API response contained no candidates."

/-- Default when the first part carries no text (app.py line 101). -/
def textNotFoundText : String := "Error: Text content not found."

/-- Sentinel of the catch-all `except Exception` branch (app.py
line 117), with the exception detail interpolated. -/
def criticalText (e : String) : String :=
  s!"Critical Error: An unexpected issue prevented processing. Exception: {e}"

/-- Sentinel of the retry-exhaustion branch (app.py line 115). -/
def failedText (n : Nat) (e : String) : String :=
  s!"Error: Failed to connect to the AI system after {n} attempts. Request Exception: {e}"

/-- Fall-through return after the retry loop (app.py line 119). -/
def mysteriousText : String := "Error: Request failed mysteriously."

/-- What one network attempt yields, as seen by the `try` body:
a transport failure raised by `requests.post` / `raise_for_status`
(a `requests.exceptions.RequestException`), an exception raised by
`response.json()` on a malformed body, or a parsed JSON result. -/
inductive AttemptOutcome where
  | transport (e : String)
  | parseError (e : String)
  | ok (result : ApiResult)
  deriving DecidableEq, Repr

/-- `result.get('candidates', [None])[0]` (app.py line 95): absent key
defaults to `[None]`, whose first slot is `None`; a present but empty
array makes `[0]` raise `IndexError`. -/
def firstCandidateSlot (r : ApiResult) : Except String (Option Candidate) :=
  match r.candidates with
  | none => .ok none
  | some [] => .error "list index out of range"
  | some (c :: _) => .ok c

/-- `candidate.get('content', {}).get('parts', [{}])[0].get('text', ...)`
(app.py line 101): missing `content` or missing `parts` fall through the
defaults to the placeholder; a present but empty `parts` array raises
`IndexError`. -/
def extractText (c : Candidate) : Except String String :=
  match c.content with
  | none => .ok textNotFoundText
  | some content =>
    match content.parts with
    | none => .ok textNotFoundText
    | some [] => .error "list index out of range"
    | some (p :: _) => .ok (p.text.getD textNotFoundText)

/-- `if grounding_metadata and grounding_metadata.get('groundingAttributions'):`
(app.py lines 104-107): sources stay `[]` unless the block exists and the
attribution list is present and non-empty (Python list truthiness). -/
def extractSources (c : Candidate) : List Attribution :=
  match c.groundingMetadata with
  | none => []
  | some gm =>
    match gm.groundingAttributions with
    | none => []
    | some l => if l.isEmpty then [] else l

/-- The body of one attempt after a parsed 2xx response (app.py
lines 95-109); `.error` is an exception propagating to the
`except Exception` handler.  `if not candidate` is true for a `None`
slot and for an empty candidate object (Python truthiness). -/
def processResult (r : ApiResult) : Except String (String × List Attribution) :=
  match firstCandidateSlot r with
  | .error e => .error e
  | .ok none => .ok (noCandidatesText, [])
  | .ok (some c) =>
    if c.content.isNone && c.groundingMetadata.isNone then
      .ok (noCandidatesText, [])
    else
      match extractText c with
      | .error e => .error e
      | .ok t => .ok (t, extractSources c)

/-- What one loop iteration decides: return a value from inside the
`try`/`except`, or fall into the retryable `RequestException` handler. -/
inductive StepResult where
  | done (text : String) (sources : List Attribution)
  | retryable (e : String)
  deriving DecidableEq, Repr

/-- One iteration of the retry loop body (app.py lines 84-117), given
the attempt's network outcome.  Transport errors are retryable; every
other exception is caught by `except Exception` and returns the
critical-error sentinel. -/
def runAttempt (o : AttemptOutcome) : StepResult :=
  match o with
  | .transport e => .retryable e
  | .parseError e => .done (criticalText e) []
  | .ok r =>
    match processResult r with
    | .ok (t, s) => .done t s
    | .error e => .done (criticalText e) []

/-- Result of running the `for attempt in range(MAX_RETRIES)` loop:
`returned = none` is the fall-through past the loop; `sleeps` is the
trace of `time.sleep` durations, `attempts` the number of iterations
executed. -/
structure LoopResult where
  returned : Option (String × List Attribution)
  sleeps : List Nat
  attempts : Nat
  deriving DecidableEq, Repr

/-- `for attempt in range(MAX_RETRIES): ...` (app.py lines 82-117),
iterating over the remaining attempt indices.  Per iteration:
`delay = INITIAL_DELAY_SECONDS * (2 ** attempt)`; on a retryable
failure, `if attempt < MAX_RETRIES - 1: time.sleep(delay)` and the
loop continues, `else` the exhaustion sentinel is returned. -/
def retryLoopGo (maxRetries delayUnit : Nat) (env : Nat → AttemptOutcome) :
    List Nat → List Nat → Nat → LoopResult
  | [], sleeps, attempts => ⟨none, sleeps, attempts⟩
  | attempt :: rest, sleeps, attempts =>
    let delay := delayUnit * 2 ^ attempt
    match runAttempt (env attempt) with
    | .done t s => ⟨some (t, s), sleeps, attempts + 1⟩
    | .retryable e =>
      if attempt < maxRetries - 1 then
        retryLoopGo maxRetries delayUnit env rest (sleeps ++ [delay]) (attempts + 1)
      else
        ⟨some (failedText maxRetries e, []), sleeps, attempts + 1⟩

/-- Return value of `call_gemini_api`, extended with the sleep trace
and the attempt count so timing claims can be stated. -/
structure CallResult where
  text : String
  sources : List Attribution
  sleeps : List Nat
  attempts : Nat
  deriving DecidableEq, Repr

/-- `call_gemini_api` (app.py lines 71-119): run the retry loop over
`range(MAX_RETRIES)`; if the loop falls through, return the
"mysteriously" sentinel (app.py line 119).  The user query only shapes
the outbound payload, which the environment abstracts, so it is not a
parameter of the model. -/
def call_gemini_api (env : Nat → AttemptOutcome) : CallResult :=
  match retryLoopGo MAX_RETRIES INITIAL_DELAY_SECONDS env (List.range MAX_RETRIES) [] 0 with
  | ⟨some (t, s), sleeps, attempts⟩ => ⟨t, s, sleeps, attempts⟩
  | ⟨none, sleeps, attempts⟩ => ⟨mysteriousText, [], sleeps, attempts⟩

/-- A `{title, uri}` record of the structured citation output. -/
structure Citation where
  title : String
  uri : String
  deriving DecidableEq, Repr

/-- `attribution.get('web', {})` (app.py lines 127, 195). -/
def webOf (a : Attribution) : WebInfo := a.web.getD ⟨none, none⟩

/-- `web_info.get('uri')` (app.py lines 128, 196). -/
def uriOf (a : Attribution) : Option String := (webOf a).uri

/-- `web_info.get('title', 'Untitled Source')` (app.py lines 129, 197). -/
def titleOf (a : Attribution) : String := (webOf a).title.getD "Untitled Source"

/-- The uri as tested by `if uri and ...` (app.py lines 131, 199):
Python truthiness makes both a missing uri and the empty string fail
the test, so both collapse to `none` here. -/
def truthyUri (a : Attribution) : Option String :=
  match uriOf a with
  | none => none
  | some u => if u = "" then none else some u

/-- The `for attribution in sources` loop of `format_citations_list`
(app.py lines 126-133); `seen` models the `seen_uris` set (membership
is all the code uses). -/
def format_citations_list_go : List Attribution → List String → List Citation
  | [], _ => []
  | a :: rest, seen =>
    match truthyUri a with
    | some u =>
      if u ∈ seen then format_citations_list_go rest seen
      else ⟨titleOf a, u⟩ :: format_citations_list_go rest (u :: seen)
    | none => format_citations_list_go rest seen

/-- `format_citations_list` (app.py lines 121-135). -/
def format_citations_list (sources : List Attribution) : List Citation :=
  format_citations_list_go sources []

/-- `f"{source_index}. [{title}]({uri})"` (app.py line 200). -/
def mkLink (n : Nat) (t u : String) : String := s!"{n}. [{t}]({u})"

/-- The header string `"\n---\n**SOURCE LOG:**"` seeding the `citations`
list (app.py line 190). -/
def sourceLogHeader : String := "\n---\n**SOURCE LOG:**"

/-- The `for attribution in sources` loop of `format_citations_cli`
(app.py lines 194-202): same dedup test as the structured formatter,
additionally numbering the emitted Markdown links from `source_index`. -/
def format_citations_cli_go : List Attribution → List String → Nat → List String
  | [], _, _ => []
  | a :: rest, seen, idx =>
    match truthyUri a with
    | some u =>
      if u ∈ seen then format_citations_cli_go rest seen idx
      else mkLink idx (titleOf a) u :: format_citations_cli_go rest (u :: seen) (idx + 1)
    | none => format_citations_cli_go rest seen idx

/-- `format_citations_cli` (app.py lines 186-206): early empty string
for an empty source list; otherwise the header plus the numbered links,
joined by newlines and closed with `"\n---\n"`, but only when at least
one link was appended (`if len(citations) > 1`). -/
def format_citations_cli (sources : List Attribution) : String :=
  if sources.isEmpty then ""
  else
    let citations := sourceLogHeader :: format_citations_cli_go sources [] 1
    if citations.length > 1 then String.intercalate "\n" citations ++ "\n---\n"
    else ""

/-- Outcome of the `/api/ask` handler: the 200 JSON body or the 400
error body.  (The outer `except` producing a 500 guards failure modes
outside this model, e.g. a non-string `query` value; no claim depends
on it.) -/
inductive AskResponse where
  | ok (query response : String) (citations : List Citation)
  | badRequest (error : String)
  deriving DecidableEq, Repr

/-- Python `str.strip()`: remove leading and trailing whitespace
characters.  (Defined over the character list so it evaluates inside
the kernel; `String.trim` agrees on the whitespace characters queries
contain but is not kernel-reducible.) -/
def pyStrip (s : String) : String :=
  ⟨((s.data.dropWhile Char.isWhitespace).reverse.dropWhile Char.isWhitespace).reverse⟩

/-- `api_ask` (app.py lines 150-172): `data.get('query', '').strip()`,
the emptiness check returning 400, else `call_gemini_api` followed by
`format_citations_list`.  The second component counts the network
attempts performed (0 on the 400 path, where `call_gemini_api` is never
invoked). -/
def api_ask (queryField : Option String) (env : Nat → AttemptOutcome) :
    AskResponse × Nat :=
  let user_query := pyStrip (queryField.getD "")
  if user_query = "" then (.badRequest "No query provided.", 0)
  else
    let r := call_gemini_api env
    (.ok user_query r.text (format_citations_list r.sources), r.attempts)

/-!
Claim-side characterizations, written from the spec's words rather than
from the code, to compare the code's formatters against.
-/

/-- The non-null uris of a raw source list, in order, as the claims
word it ("distinct non-null uris" counts these). -/
def nonNullUris (sources : List Attribution) : List String :=
  sources.filterMap uriOf

/-- The truthy (non-null, non-empty) uris of a raw source list, in
order. -/
def truthyUris (sources : List Attribution) : List String :=
  sources.filterMap truthyUri

/-- Order-preserving deduplication keeping the first occurrence of each
element ("first-seen order"). -/
def firstSeenDedup : List String → List String
  | [] => []
  | u :: us => u :: (firstSeenDedup us).filter (fun v => v ≠ u)

/-- The title carried by the first attribution whose truthy uri is `u`
("the title of that uri's first occurrence"). -/
def firstTitle (sources : List Attribution) (u : String) : Option String :=
  (sources.find? (fun a => truthyUri a == some u)).map titleOf

/-- Claim-side description of the structured citation output: one
record per distinct truthy uri, in first-seen order, titled by the
uri's first occurrence. -/
def specPairs (sources : List Attribution) : List Citation :=
  (firstSeenDedup (truthyUris sources)).map
    (fun u => ⟨(firstTitle sources u).getD "Untitled Source", u⟩)

/-- Claim-side numbering of Markdown links: the records in order,
numbered consecutively starting at `idx`. -/
def numberLinks (idx : Nat) : List Citation → List String
  | [] => []
  | c :: cs => mkLink idx c.title c.uri :: numberLinks (idx + 1) cs

/-!
Helper lemmas about the retry loop.
-/

/-- Started anywhere inside `range(maxRetries)` with at least one
attempt left, the loop returns from within: the fall-through
(`returned = none`) is never produced. -/
theorem retryLoopGo_ne_none (mr d : Nat) (env : Nat → AttemptOutcome) :
    ∀ (k a : Nat) (sleeps : List Nat) (atts : Nat), a + k = mr → 0 < k →
      (retryLoopGo mr d env (List.range' a k) sleeps atts).returned ≠ none := by
  intro k
  induction k with
  | zero => intro a sleeps atts _ h; exact absurd h (by simp)
  | succ n ih =>
    intro a sleeps atts hsum _
    rw [List.range'_succ]
    simp only [retryLoopGo]
    cases hra : runAttempt (env a) with
    | done t s => simp
    | retryable e =>
      by_cases hlt : a < mr - 1
      · simp only [hlt, if_true]
        exact ih (a + 1) _ _ (by omega) (by omega)
      · simp [hlt]

/-- The sleep trace the loop appends is always an initial segment of
the geometric sequence `d * 2 ^ attempt` over the attempt indices it
visits. -/
theorem retryLoopGo_sleeps_eq (mr d : Nat) (env : Nat → AttemptOutcome) :
    ∀ (k a : Nat) (sleeps : List Nat) (atts : Nat), ∃ m,
      (retryLoopGo mr d env (List.range' a k) sleeps atts).sleeps
        = sleeps ++ (List.range' a m).map (fun i => d * 2 ^ i) := by
  intro k
  induction k with
  | zero => intro a sleeps atts; exact ⟨0, by simp [retryLoopGo]⟩
  | succ n ih =>
    intro a sleeps atts
    rw [List.range'_succ]
    simp only [retryLoopGo]
    cases hra : runAttempt (env a) with
    | done t s => exact ⟨0, by simp⟩
    | retryable e =>
      by_cases hlt : a < mr - 1
      · simp only [hlt, if_true]
        obtain ⟨m, hm⟩ := ih (a + 1) (sleeps ++ [d * 2 ^ a]) (atts + 1)
        refine ⟨m + 1, ?_⟩
        rw [hm, List.range'_succ, List.map_cons, List.append_assoc]
        rfl
      · exact ⟨0, by simp [hlt]⟩

/-- The sleep trace of `call_gemini_api` is the loop's sleep trace,
whichever way the loop ended. -/
theorem call_gemini_api_sleeps (env : Nat → AttemptOutcome) :
    (call_gemini_api env).sleeps
      = (retryLoopGo MAX_RETRIES INITIAL_DELAY_SECONDS env
          (List.range MAX_RETRIES) [] 0).sleeps := by
  unfold call_gemini_api
  cases h : retryLoopGo MAX_RETRIES INITIAL_DELAY_SECONDS env (List.range MAX_RETRIES) [] 0 with
  | mk ret sl att =>
    cases ret with
    | none => simp
    | some ts => obtain ⟨t, s⟩ := ts; simp

/-!
Concrete scenarios used by the claims.
-/

/-- A parsed 2xx body whose single candidate carries the text
`"All systems nominal."` and no grounding block. -/
def c1SuccessResult : ApiResult :=
  ⟨some [some ⟨some ⟨some [⟨some "All systems nominal."⟩]⟩, none⟩]⟩

/-- C1 scenario: transport failures on the first two attempts, success
on the third. -/
def c1Env : Nat → AttemptOutcome := fun i =>
  if i < 2 then .transport "Connection timed out" else .ok c1SuccessResult

/-- C6 counterexample scenario: a 2xx, well-formed JSON body with an
explicitly empty `candidates` array, on every attempt. -/
def c6Env : Nat → AttemptOutcome := fun _ => .ok ⟨some []⟩

/-- C1, counterexample to the claim as stated: in the
fail/fail/succeed scenario the two sleeps last
`initial_delay * 2^0` and `initial_delay * 2^1` time units — not the
claimed `initial_delay * 2^1` and `initial_delay * 2^2` — because the
code sleeps the delay computed for the attempt that just failed
(app.py lines 83, 112-113).  The successful text is still returned. -/
theorem c1_backoff_cex :
    (call_gemini_api c1Env).text = "All systems nominal."
    ∧ (call_gemini_api c1Env).sleeps
        = [INITIAL_DELAY_SECONDS * 2 ^ 0, INITIAL_DELAY_SECONDS * 2 ^ 1]
    ∧ (call_gemini_api c1Env).sleeps
        ≠ [INITIAL_DELAY_SECONDS * 2 ^ 1, INITIAL_DELAY_SECONDS * 2 ^ 2] :=
  ⟨rfl, rfl, by decide⟩

/-- C1 (amended): no sleep precedes attempt 0 and the sleep before
attempt `i > 0` lasts `initial_delay * 2 ^ (i - 1)` — the sleep trace
is always a prefix of the sequence `fun j => initial_delay * 2 ^ j`,
its `j`-th entry being the sleep before attempt `j + 1`.  In the
fail/fail/succeed scenario the call returns the successful text (not
the exhaustion sentinel) after sleeps of `initial_delay * 1` and
`initial_delay * 2`. -/
theorem c1_backoff_amended :
    (∀ env : Nat → AttemptOutcome, ∃ n,
      (call_gemini_api env).sleeps
        = (List.range n).map (fun i => INITIAL_DELAY_SECONDS * 2 ^ i))
    ∧ call_gemini_api c1Env
        = ⟨"All systems nominal.", [],
           [INITIAL_DELAY_SECONDS * 2 ^ 0, INITIAL_DELAY_SECONDS * 2 ^ 1], 3⟩ := by
  constructor
  · intro env
    obtain ⟨m, hm⟩ :=
      retryLoopGo_sleeps_eq MAX_RETRIES INITIAL_DELAY_SECONDS env MAX_RETRIES 0 [] 0
    refine ⟨m, ?_⟩
    rw [call_gemini_api_sleeps, List.range_eq_range', hm, List.nil_append,
      ← List.range_eq_range']
  · rfl

/-- C5: when all `MAX_RETRIES = 3` attempts raise transport-level
errors, the call returns the exhaustion sentinel embedding the last
exception detail, with an empty source list, after exactly
`MAX_RETRIES` attempts (and backoff sleeps of 1 and 2 units in
between). -/
theorem c5_exhaustion (env : Nat → AttemptOutcome) (e0 e1 e2 : String)
    (h0 : env 0 = .transport e0) (h1 : env 1 = .transport e1)
    (h2 : env 2 = .transport e2) :
    call_gemini_api env
      = ⟨failedText MAX_RETRIES e2, [],
         [INITIAL_DELAY_SECONDS * 2 ^ 0, INITIAL_DELAY_SECONDS * 2 ^ 1],
         MAX_RETRIES⟩ := by
  have hr : List.range MAX_RETRIES = [0, 1, 2] := rfl
  unfold call_gemini_api
  rw [hr]
  simp [retryLoopGo, runAttempt, h0, h1, h2, MAX_RETRIES, INITIAL_DELAY_SECONDS]

/-- Closed instantiation of `c5_exhaustion`: every attempt fails with
the same transport error. -/
theorem c5_exhaustion_witness :
    (fun _ => AttemptOutcome.transport "refused" : Nat → AttemptOutcome) 0
        = .transport "refused"
    ∧ (fun _ => AttemptOutcome.transport "refused" : Nat → AttemptOutcome) 1
        = .transport "refused"
    ∧ (fun _ => AttemptOutcome.transport "refused" : Nat → AttemptOutcome) 2
        = .transport "refused"
    ∧ call_gemini_api (fun _ => .transport "refused")
        = ⟨failedText MAX_RETRIES "refused", [],
           [INITIAL_DELAY_SECONDS * 2 ^ 0, INITIAL_DELAY_SECONDS * 2 ^ 1],
           MAX_RETRIES⟩ :=
  ⟨rfl, rfl, rfl, c5_exhaustion _ "refused" "refused" "refused" rfl rfl rfl⟩

/-- C6, counterexample to the claim as stated: a 2xx, well-formed JSON
response with an explicitly empty `candidates` array contains no
candidate, yet the call returns the critical-error sentinel (the
`[0]` indexing in `result.get('candidates', [None])[0]` raises
`IndexError`), not the no-candidates sentinel. -/
theorem c6_no_candidates_cex :
    call_gemini_api c6Env
      = ⟨criticalText "list index out of range", [], [], 1⟩
    ∧ criticalText "list index out of range" ≠ noCandidatesText :=
  ⟨rfl, by decide⟩

/-- C6 (amended): on a 2xx, well-formed JSON response whose
`candidates` field is absent, or whose first candidate is JSON `null`
or an empty object, the attempt immediately returns the no-candidates
sentinel with an empty source list — no further attempt, no sleep.  If
`candidates` is present but an empty array, the attempt instead
immediately returns the critical-error sentinel (again with empty
sources, no further attempt and no sleep). -/
theorem c6_no_candidates_amended (mr d : Nat) (env : Nat → AttemptOutcome)
    (attempt : Nat) (rest sleeps : List Nat) (atts : Nat) (r : ApiResult)
    (hr : env attempt = .ok r) :
    ((r.candidates = none
        ∨ (∃ cs, r.candidates = some (none :: cs))
        ∨ (∃ c cs, r.candidates = some (some c :: cs)
            ∧ c.content = none ∧ c.groundingMetadata = none)) →
      retryLoopGo mr d env (attempt :: rest) sleeps atts
        = ⟨some (noCandidatesText, []), sleeps, atts + 1⟩)
    ∧ (r.candidates = some [] →
      retryLoopGo mr d env (attempt :: rest) sleeps atts
        = ⟨some (criticalText "list index out of range", []), sleeps, atts + 1⟩) := by
  constructor
  · rintro (hc | ⟨cs, hc⟩ | ⟨c, cs, hc, hcc, hcg⟩)
    · simp [retryLoopGo, runAttempt, hr, processResult, firstCandidateSlot, hc]
    · simp [retryLoopGo, runAttempt, hr, processResult, firstCandidateSlot, hc]
    · simp [retryLoopGo, runAttempt, hr, processResult, firstCandidateSlot, hc, hcc, hcg]
  · intro hc
    simp [retryLoopGo, runAttempt, hr, processResult, firstCandidateSlot, hc]

/-- Closed instantiation of `c6_no_candidates_amended`: a body with no
`candidates` key yields the no-candidates sentinel at once. -/
theorem c6_no_candidates_amended_witness :
    (fun _ => AttemptOutcome.ok ⟨none⟩ : Nat → AttemptOutcome) 0 = .ok ⟨none⟩
    ∧ retryLoopGo 3 1 (fun _ => .ok ⟨none⟩) (0 :: [1, 2]) [] 0
        = ⟨some (noCandidatesText, []), [], 0 + 1⟩ :=
  ⟨rfl,
    (c6_no_candidates_amended 3 1 _ 0 [1, 2] [] 0 ⟨none⟩ rfl).1 (Or.inl rfl)⟩

/-- C7: a non-transport exception during response handling — a body
that fails JSON parsing, or any exception raised while processing the
parsed result — makes the attempt return the critical-error sentinel
with an empty source list immediately: no further attempt, no sleep. -/
theorem c7_critical_short_circuit (mr d : Nat) (env : Nat → AttemptOutcome)
    (attempt : Nat) (rest sleeps : List Nat) (atts : Nat) (e : String)
    (h : env attempt = .parseError e
        ∨ ∃ r, env attempt = .ok r ∧ processResult r = .error e) :
    retryLoopGo mr d env (attempt :: rest) sleeps atts
      = ⟨some (criticalText e, []), sleeps, atts + 1⟩ := by
  rcases h with h | ⟨r, hrr, hp⟩
  · simp [retryLoopGo, runAttempt, h]
  · simp [retryLoopGo, runAttempt, hrr, hp]

/-- Closed instantiation of `c7_critical_short_circuit`: a malformed
JSON body on the first attempt. -/
theorem c7_critical_short_circuit_witness :
    ((fun _ => AttemptOutcome.parseError "Expecting value" : Nat → AttemptOutcome) 0
        = .parseError "Expecting value"
      ∨ ∃ r, (fun _ => AttemptOutcome.parseError "Expecting value" : Nat → AttemptOutcome) 0
          = .ok r ∧ processResult r = .error "Expecting value")
    ∧ retryLoopGo 3 1 (fun _ => .parseError "Expecting value") (0 :: [1, 2]) [] 0
        = ⟨some (criticalText "Expecting value", []), [], 0 + 1⟩ :=
  ⟨Or.inl rfl,
    c7_critical_short_circuit 3 1 _ 0 [1, 2] [] 0 "Expecting value" (Or.inl rfl)⟩

/-- C10: for any positive retry budget, the loop always returns from
within — the fall-through "Request failed mysteriously" branch after
the loop is unreachable. -/
theorem c10_fallthrough_unreachable (mr d : Nat) (env : Nat → AttemptOutcome)
    (sleeps : List Nat) (atts : Nat) (h : 0 < mr) :
    (retryLoopGo mr d env (List.range mr) sleeps atts).returned ≠ none := by
  rw [List.range_eq_range']
  exact retryLoopGo_ne_none mr d env mr 0 sleeps atts (by omega) h

/-- Closed instantiation of `c10_fallthrough_unreachable` at the
code's `MAX_RETRIES = 3`. -/
theorem c10_fallthrough_unreachable_witness :
    0 < 3 ∧ (retryLoopGo 3 1 (fun _ => .transport "boom")
        (List.range 3) [] 0).returned ≠ none :=
  ⟨by decide, c10_fallthrough_unreachable 3 1 _ [] 0 (by decide)⟩

/-- C3: for every query that is non-empty after stripping, and every
behaviour of the outbound call (any mix of transport failures,
empty-candidate bodies, parse errors, or success on any attempt), the
handler returns the 200 body whose `response` field is the string
`call_gemini_api` produced — `call_gemini_api` totalizes every failure
into text, so the handler never lacks a response string. -/
theorem c3_handler_total (q : Option String) (env : Nat → AttemptOutcome)
    (h : pyStrip (q.getD "") ≠ "") :
    (api_ask q env).fst
      = .ok (pyStrip (q.getD "")) (call_gemini_api env).text
          (format_citations_list (call_gemini_api env).sources) := by
  simp [api_ask, h]

/-- Closed instantiation of `c3_handler_total`: query `"hi"` under
total network failure still yields a 200 body with a response
string. -/
theorem c3_handler_total_witness :
    pyStrip ((some "hi" : Option String).getD "") ≠ ""
    ∧ (api_ask (some "hi") (fun _ => .transport "net down")).fst
        = .ok (pyStrip ((some "hi" : Option String).getD ""))
            (call_gemini_api (fun _ => .transport "net down")).text
            (format_citations_list
              (call_gemini_api (fun _ => .transport "net down")).sources) :=
  ⟨by decide, c3_handler_total (some "hi") _ (by decide)⟩

/-- C4: a missing, empty, or whitespace-only query makes the handler
return the 400 error body, and `call_gemini_api` is never invoked:
zero network attempts are performed. -/
theorem c4_empty_query (q : Option String) (env : Nat → AttemptOutcome)
    (h : pyStrip (q.getD "") = "") :
    api_ask q env = (.badRequest "No query provided.", 0) := by
  simp [api_ask, h]

/-- Closed instantiation of `c4_empty_query`: a whitespace-only
query. -/
theorem c4_empty_query_witness :
    pyStrip ((some "   " : Option String).getD "") = ""
    ∧ api_ask (some "   ") (fun _ => .transport "net down")
        = (.badRequest "No query provided.", 0) :=
  ⟨by decide, c4_empty_query (some "   ") _ (by decide)⟩

/-!
Helper lemmas about the citation formatters.
-/

/-- Excluding the members of `u :: seen` is excluding the members of
`seen` and then excluding `u`. -/
theorem filter_notMem_cons (l : List String) (u : String) (seen : List String) :
    l.filter (fun v => decide (v ∉ u :: seen))
      = (l.filter (fun v => decide (v ∉ seen))).filter (fun v => v ≠ u) := by
  rw [List.filter_filter]
  refine List.filter_congr ?_
  intro v _
  by_cases h1 : v = u <;> by_cases h2 : v ∈ seen <;> simp [h1, h2]

/-- First-seen deduplication commutes with filtering. -/
theorem firstSeenDedup_filter (p : String → Bool) :
    ∀ l : List String, firstSeenDedup (l.filter p) = (firstSeenDedup l).filter p := by
  intro l
  induction l with
  | nil => rfl
  | cons u us ih =>
    by_cases hp : p u
    · rw [List.filter_cons_of_pos hp]
      simp only [firstSeenDedup]
      rw [ih, List.filter_cons_of_pos hp, List.filter_filter, List.filter_filter]
      refine congrArg _ (List.filter_congr ?_)
      intro v _
      exact Bool.and_comm _ _
    · rw [List.filter_cons_of_neg hp]
      simp only [firstSeenDedup]
      rw [ih, List.filter_cons_of_neg hp, List.filter_filter]
      refine List.filter_congr ?_
      intro v _
      by_cases hv : v = u
      · subst hv; simp [hp]
      · simp [hv]

/-- Every element of the deduplication comes from the original list. -/
theorem mem_firstSeenDedup : ∀ (l : List String) (v : String),
    v ∈ firstSeenDedup l → v ∈ l := by
  intro l
  induction l with
  | nil => intro v hv; simp [firstSeenDedup] at hv
  | cons u us ih =>
    intro v hv
    simp only [firstSeenDedup, List.mem_cons] at hv
    rcases hv with rfl | hv
    · exact List.mem_cons_self _ _
    · exact List.mem_cons_of_mem _ (ih v (List.mem_filter.mp hv).1)

/-- First-seen deduplication has no duplicates ("exactly one record
per distinct uri"). -/
theorem firstSeenDedup_nodup : ∀ l : List String, (firstSeenDedup l).Nodup := by
  intro l
  induction l with
  | nil => simp [firstSeenDedup]
  | cons u us ih =>
    simp only [firstSeenDedup]
    refine List.nodup_cons.mpr ⟨?_, List.Nodup.filter _ ih⟩
    intro hu
    have := (List.mem_filter.mp hu).2
    simp at this

/-- The uris of the structured formatter's loop output are the
first-seen deduplication of the truthy input uris not already seen. -/
theorem fcl_go_map_uri :
    ∀ (sources : List Attribution) (seen : List String),
      (format_citations_list_go sources seen).map Citation.uri
        = firstSeenDedup ((truthyUris sources).filter (fun v => decide (v ∉ seen))) := by
  intro sources
  induction sources with
  | nil => intro seen; rfl
  | cons a rest ih =>
    intro seen
    cases h : truthyUri a with
    | none =>
      simp only [format_citations_list_go, truthyUris, List.filterMap_cons, h]
      simpa [truthyUris] using ih seen
    | some u =>
      by_cases hu : u ∈ seen
      · simp only [format_citations_list_go, truthyUris, List.filterMap_cons, h, if_pos hu]
        rw [List.filter_cons_of_neg (by simp [hu])]
        simpa [truthyUris] using ih seen
      · simp only [format_citations_list_go, truthyUris, List.filterMap_cons, h, if_neg hu]
        rw [List.map_cons, List.filter_cons_of_pos (by simp [hu])]
        simp only [firstSeenDedup]
        refine congrArg _ ?_
        rw [← firstSeenDedup_filter, ← filter_notMem_cons]
        simpa [truthyUris] using ih (u :: seen)

/-- Every record the structured formatter's loop emits carries a uri
not yet seen, titled by that uri's first occurrence in the sources. -/
theorem fcl_go_titles :
    ∀ (sources : List Attribution) (seen : List String) (c : Citation),
      c ∈ format_citations_list_go sources seen →
        c.uri ∉ seen ∧ firstTitle sources c.uri = some c.title := by
  intro sources
  induction sources with
  | nil => intro seen c hc; simp [format_citations_list_go] at hc
  | cons a rest ih =>
    intro seen c hc
    cases h : truthyUri a with
    | none =>
      simp only [format_citations_list_go, h] at hc
      obtain ⟨h1, h2⟩ := ih seen c hc
      refine ⟨h1, ?_⟩
      simp only [firstTitle] at h2 ⊢
      rw [List.find?_cons_of_neg _ (by simp [h])]
      exact h2
    | some u =>
      simp only [format_citations_list_go, h] at hc
      by_cases hu : u ∈ seen
      · rw [if_pos hu] at hc
        obtain ⟨h1, h2⟩ := ih seen c hc
        have hne : u ≠ c.uri := fun he => h1 (he ▸ hu)
        refine ⟨h1, ?_⟩
        simp only [firstTitle] at h2 ⊢
        rw [List.find?_cons_of_neg _ (by simp [h, hne])]
        exact h2
      · rw [if_neg hu] at hc
        rcases List.mem_cons.mp hc with rfl | hc
        · refine ⟨hu, ?_⟩
          simp only [firstTitle]
          rw [List.find?_cons_of_pos _ (by simp [h])]
          rfl
        · obtain ⟨h1, h2⟩ := ih (u :: seen) c hc
          have h1' : c.uri ∉ seen := fun hm => h1 (List.mem_cons_of_mem _ hm)
          have hne : u ≠ c.uri := fun he => h1 (he ▸ List.mem_cons_self _ _)
          refine ⟨h1', ?_⟩
          simp only [firstTitle] at h2 ⊢
          rw [List.find?_cons_of_neg _ (by simp [h, hne])]
          exact h2

/-- The CLI loop emits exactly the structured loop's records, rendered
as Markdown links numbered consecutively from its starting index. -/
theorem cli_go_eq_numberLinks :
    ∀ (sources : List Attribution) (seen : List String) (idx : Nat),
      format_citations_cli_go sources seen idx
        = numberLinks idx (format_citations_list_go sources seen) := by
  intro sources
  induction sources with
  | nil => intro seen idx; rfl
  | cons a rest ih =>
    intro seen idx
    simp only [format_citations_cli_go, format_citations_list_go]
    cases h : truthyUri a with
    | none => exact ih seen idx
    | some u =>
      by_cases hu : u ∈ seen
      · simp only [if_pos hu]
        exact ih seen idx
      · simp only [if_neg hu, numberLinks]
        rw [ih (u :: seen) (idx + 1)]

/-- `numberLinks` renders one link per record. -/
theorem numberLinks_length :
    ∀ (idx : Nat) (cs : List Citation), (numberLinks idx cs).length = cs.length := by
  intro idx cs
  induction cs generalizing idx with
  | nil => rfl
  | cons c cs ih => simp [numberLinks, ih]

/-- The structured formatter equals its claim-side description: one
record per distinct truthy uri, first-seen order, first-occurrence
titles. -/
theorem fcl_eq_specPairs (sources : List Attribution) :
    format_citations_list sources = specPairs sources := by
  have h1 : (format_citations_list sources).map Citation.uri
      = firstSeenDedup (truthyUris sources) := by
    have h := fcl_go_map_uri sources []
    simpa [format_citations_list] using h
  unfold specPairs
  rw [← h1, List.map_map]
  symm
  conv_rhs => rw [← List.map_id (format_citations_list sources)]
  refine List.map_congr_left ?_
  intro c hc
  have h2 := (fcl_go_titles sources [] c hc).2
  simp only [Function.comp, h2, Option.getD_some, id]

/-!
Claim theorems about the citation formatters.
-/

/-- C2 counterexample input: a single attribution whose uri is present
but the empty string. -/
def c2CexSources : List Attribution := [⟨some ⟨some "", some "Alpha"⟩⟩]

/-- C2, counterexample to the claim as stated: an attribution carrying
the non-null uri `""` is dropped by `if uri and ...` (Python string
truthiness), so the output has 0 entries while the input has 1
distinct non-null uri. -/
theorem c2_dedup_cex :
    format_citations_list c2CexSources = []
    ∧ (firstSeenDedup (nonNullUris c2CexSources)).length = 1 :=
  ⟨rfl, rfl⟩

/-- C2 (amended): the structured output's uris are exactly the
first-seen deduplication of the truthy (non-null, non-empty) input
uris — entries with an absent or empty uri are excluded, each distinct
such uri appears exactly once, in first-seen order; each record's
title is the title of that uri's first occurrence (defaulting to
"Untitled Source"); and the output length is the number of distinct
non-null, non-empty uris. -/
theorem c2_dedup_amended (sources : List Attribution) :
    (format_citations_list sources).map Citation.uri
        = firstSeenDedup (truthyUris sources)
    ∧ ((format_citations_list sources).map Citation.uri).Nodup
    ∧ (∀ c ∈ format_citations_list sources,
        firstTitle sources c.uri = some c.title)
    ∧ (format_citations_list sources).length
        = (firstSeenDedup (truthyUris sources)).length := by
  have h1 : (format_citations_list sources).map Citation.uri
      = firstSeenDedup (truthyUris sources) := by
    have h := fcl_go_map_uri sources []
    simpa [format_citations_list] using h
  refine ⟨h1, ?_, ?_, ?_⟩
  · rw [h1]; exact firstSeenDedup_nodup _
  · intro c hc; exact (fcl_go_titles sources [] c hc).2
  · rw [← h1, List.length_map]

/-- C8 counterexample input: a non-empty source list whose only uri is
the empty string. -/
def c8CexSources : List Attribution := [⟨some ⟨some "", some "Beta"⟩⟩]

/-- C8, counterexample to the claim as stated: a non-empty source list
with one distinct (empty-string) uri renders to the empty string — no
numbered link for that uri and no header/footer banner — because
`if uri and ...` drops it and `len(citations) > 1` then fails. -/
theorem c8_cli_cex :
    c8CexSources ≠ []
    ∧ format_citations_cli c8CexSources = ""
    ∧ firstSeenDedup (nonNullUris c8CexSources) = [""] :=
  ⟨by decide, rfl, rfl⟩

/-- C8 (amended): rendering an empty source list gives the empty
string; rendering a list with at least one truthy (non-null,
non-empty) uri gives the header banner, one Markdown link per distinct
truthy uri numbered consecutively from 1 in first-seen order (titled
by each uri's first occurrence), joined by newlines and closed by the
footer; a non-empty list with no truthy uri also gives the empty
string. -/
theorem c8_cli_amended (sources : List Attribution) :
    format_citations_cli sources
      = if (specPairs sources).isEmpty then ""
        else String.intercalate "\n"
            (sourceLogHeader :: numberLinks 1 (specPairs sources)) ++ "\n---\n" := by
  rw [← fcl_eq_specPairs]
  cases sources with
  | nil => rfl
  | cons a rest =>
    unfold format_citations_cli
    rw [cli_go_eq_numberLinks]
    simp only [List.isEmpty_cons, if_neg Bool.false_ne_true]
    have hgo : format_citations_list_go (a :: rest) [] = format_citations_list (a :: rest) := rfl
    rw [hgo]
    cases hf : format_citations_list (a :: rest) with
    | nil => simp [numberLinks]
    | cons c cs =>
      have hlen : (sourceLogHeader :: numberLinks 1 (c :: cs)).length > 1 := by
        simp [numberLinks_length]
      simp [hlen, numberLinks]

/-- C9: the CLI loop's output is exactly the structured formatter's
records, rendered in the same order as Markdown links numbered
consecutively from 1 — the two renderings implement the same
deduplication and emit the same (title, uri) sequence. -/
theorem c9_renderings_agree (sources : List Attribution) :
    format_citations_cli_go sources [] 1
      = numberLinks 1 (format_citations_list sources) :=
  cli_go_eq_numberLinks sources [] 1

end Vision
